import Mathlib

/-!
Shallow embedding of the bootyspector probe pipeline
(src/bootnode.rs, src/main.rs, src/metrics.rs, src/cli.rs) and proofs
about the claims of its specification.

Conventions of the embedding:
* Rust `u16`/`u64`/`u32` counters are `Nat`; where wrap-around or
  saturation matters it is written explicitly.
* Fallible Rust code (`Result<T>`) becomes `Except String T`; the error
  payload is the (model of the) `anyhow` message.
* Effects are made explicit: the HTTP fetch of one scrape attempt is an
  oracle `Nat → Except String String` (attempt index ↦ payload or error),
  the per-attempt random jitter an oracle `Nat → Nat`, one polling
  iteration's scrape outcome an oracle `Nat → Except String MetricsResult`,
  the wall-clock deadline a fuel `Nat` counting polling iterations that
  still fit before `Instant::now() < end_time` turns false, and filesystem
  / process-spawn outcomes are fields of an environment record.
* Rust `&str` operations are modelled structurally on `List Char`
  (`String.data`), mirroring `lines`, `trim`, `split_whitespace`,
  `split('{')`, `starts_with('#')` one by one.
-/

namespace Bootyspector

/-- Status tag of one scrape (src/metrics.rs `MetricsStatus`). -/
inductive MetricsStatus where
  | available
  | noMetricFound
  | unavailable (reason : String)
deriving DecidableEq, Repr

/-- Result of one scrape (src/metrics.rs `MetricsResult`); `peers : u64` is `Nat`,
the `HashMap<String, u64>` is an association list. -/
structure MetricsResult where
  peers : Nat
  peer_types : Option (List (String × Nat))
  status : MetricsStatus
deriving DecidableEq, Repr

/-- Terminal status of one probe (src/metrics.rs `TestStatus`). -/
inductive TestStatus where
  | success
  | metricsUnavailable
  | noMetricFound
  | timeout
  | nodeStartupFailed
deriving DecidableEq, Repr

/-- Durable result of one probe (src/metrics.rs `TestResult`). -/
structure TestResult where
  id : String
  network : String
  bootnode : String
  valid : Bool
  test_duration_ms : Nat
  discovered_peers : Nat
  status : TestStatus
  error_details : Option String
deriving DecidableEq, Repr

/-- The fields of src/cli.rs `Cli` that the probe pipeline reads.
`min_peers` is used at src/bootnode.rs:311 and :416 but is not declared in
src/src/cli.rs; modelled from the spec: the "configured minimum peer count",
a `u64` (`Nat`) compared against `MetricsResult.peers`. -/
structure Cli where
  data_dir : String
  chain_spec_dir : String
  min_peers : Nat
  timeout : Nat
deriving DecidableEq, Repr

/-! ## Port allocator (src/bootnode.rs `get_next_port`) -/

/-- src/bootnode.rs:18 `const MIN_PORT: u16 = 49152`. -/
def MIN_PORT : Nat := 49152

/-- src/bootnode.rs:19 `const MAX_PORT: u16 = 65535`. -/
def MAX_PORT : Nat := 65535

/-- One call of src/bootnode.rs `get_next_port`, with the `NEXT_PORT` atomic
made an explicit state: returns the current counter value and the stored
successor (`MIN_PORT` once the counter has reached `MAX_PORT`). -/
def get_next_port (current : Nat) : Nat × Nat :=
  (current, if MAX_PORT ≤ current then MIN_PORT else current + 1)

/-- The counter state after `k` consecutive `get_next_port` calls from state `s`. -/
def portState : Nat → Nat → Nat
  | 0, s => s
  | k + 1, s => portState k (get_next_port s).2

/-- The ports returned by `k` consecutive `get_next_port` calls from state `s`. -/
def portTrace : Nat → Nat → List Nat
  | 0, _ => []
  | k + 1, s => (get_next_port s).1 :: portTrace k (get_next_port s).2

/-! ## Metrics parsing (src/bootnode.rs `parse_metric_line`, `parse_peer_metrics`) -/

/-- Rust `str::trim` on the character list: drop whitespace at both ends. -/
def trimChars (l : List Char) : List Char :=
  ((l.dropWhile Char.isWhitespace).reverse.dropWhile Char.isWhitespace).reverse

/-- Rust `str::starts_with('#')`. -/
def startsWithHash : List Char → Bool
  | c :: _ => c = '#'
  | [] => false

/-- Rust `str::split_whitespace`: maximal runs of non-whitespace characters
(`acc` holds the current run, reversed). -/
def splitWhitespaceAux : List Char → List Char → List (List Char)
  | [], acc => if acc.isEmpty then [] else [acc.reverse]
  | c :: cs, acc =>
    if c.isWhitespace then
      if acc.isEmpty then splitWhitespaceAux cs []
      else acc.reverse :: splitWhitespaceAux cs []
    else splitWhitespaceAux cs (c :: acc)

/-- Drop one trailing `'\r'`, as Rust `str::lines` does on each line. -/
def stripCR (l : List Char) : List Char :=
  match l.getLast? with
  | some c => if c = '\r' then l.dropLast else l
  | none => l

/-- Rust `str::lines`: split at `'\n'`, strip one trailing `'\r'` per line,
and yield no final empty line after a terminating `'\n'`. -/
def splitLines : List Char → List Char → List (List Char)
  | [], acc => if acc.isEmpty then [] else [stripCR acc.reverse]
  | c :: cs, acc =>
    if c = '\n' then stripCR acc.reverse :: splitLines cs []
    else splitLines cs (c :: acc)

/-- Rust `parts[0].split('{').next()`: the segment before the first `'{'`
(the whole token when no brace occurs). -/
def takeUntilBrace (l : List Char) : List Char :=
  l.takeWhile (fun c => c ≠ '{')

/-- Decimal digits to the number they denote. -/
def digitsToNat (ds : List Char) : Nat :=
  ds.foldl (fun a c => 10 * a + (c.toNat - 48)) 0

/-- `u64::MAX`. -/
def U64_MAX : Nat := 2 ^ 64 - 1

/-- Truncating value of an unsigned decimal literal `digits [. digits]`
(at least one digit overall, nothing else): the integer part. -/
def parseDecTrunc (cs : List Char) : Option Nat :=
  let intPart := cs.takeWhile Char.isDigit
  let rest := cs.dropWhile Char.isDigit
  match rest with
  | [] => if intPart.isEmpty then none else some (digitsToNat intPart)
  | '.' :: frac =>
    if frac.all Char.isDigit && !(intPart.isEmpty && frac.isEmpty) then
      some (digitsToNat intPart)
    else none
  | _ => none

/-- Modelled: Rust `value_str.parse::<f64>()` followed by `value as u64`
(src/bootnode.rs:283-290). Floating-point representation is not modelled:
the accepted grammar is restricted to optionally signed decimal literals
(no exponent, no `inf`/`NaN`), the value is truncated toward zero, negative
values truncate to `0` and large values saturate at `u64::MAX`, as Rust's
float-to-int `as` cast does. The claims proved below do not depend on
floating-point rounding. -/
def parse_f64_as_u64 : List Char → Option Nat
  | [] => none
  | '-' :: rest => (parseDecTrunc rest).map (fun _ => 0)
  | '+' :: rest => (parseDecTrunc rest).map (fun n => min n U64_MAX)
  | cs => (parseDecTrunc cs).map (fun n => min n U64_MAX)

/-- Association-list lookup, the model of `HashMap::get` / `contains_key`
(and of `serde_json::Map` key lookup). -/
def lookupKV {α : Type} : List (String × α) → String → Option α
  | [], _ => none
  | (k', v) :: rest, k => if k' = k then some v else lookupKV rest k

/-- Association-list insert-or-overwrite, the model of `HashMap::insert`
(and of `serde_json::Map::insert`): overwrite the value at an existing key
in place, otherwise append the new binding. -/
def setKV {α : Type} : List (String × α) → String → α → List (String × α)
  | [], k, v => [(k, v)]
  | (k', v') :: rest, k, v =>
    if k' = k then (k', v) :: rest else (k', v') :: setKV rest k v

/-- src/bootnode.rs:269-295 `NodeProcess::parse_metric_line`. Comment/blank
lines and lines whose last token is not a number yield `Ok(None)`; the two
recognized metric names map to the keys `"discovered"` and `"connected"`.
The `Result` error case is never produced, mirroring the source. -/
def parse_metric_line (line : List Char) : Except String (Option (String × Nat)) :=
  if (trimChars line).isEmpty || startsWithHash line then .ok none
  else
    let parts := splitWhitespaceAux line []
    if parts.isEmpty then .ok none
    else
      let metric_name := trimChars (takeUntilBrace (parts.headD []))
      let value_str := parts.getLast?.getD ['0']
      match parse_f64_as_u64 value_str with
      | none => .ok none
      | some value =>
        if metric_name = "substrate_sub_libp2p_peerset_num_discovered".data then
          .ok (some ("discovered", value))
        else if metric_name = "substrate_sub_libp2p_peers_count".data then
          .ok (some ("connected", value))
        else .ok none

/-- src/bootnode.rs:237-267 `NodeProcess::parse_peer_metrics`: fold over the
payload's lines, skipping blank and comment lines, inserting each parsed
metric; a line-level parse failure is only logged (the fold keeps the map
unchanged), and the function's only exit is `Ok(peer_data)`. -/
def parse_peer_metrics (metrics : String) : Except String (List (String × Nat)) :=
  Except.ok <|
    (splitLines metrics.data []).foldl
      (fun peer_data line =>
        if (trimChars line).isEmpty || startsWithHash line then peer_data
        else
          match parse_metric_line line with
          | .ok (some (metric, count)) => setKV peer_data metric count
          | .ok none => peer_data
          | .error _ => peer_data)
      []

/-- src/bootnode.rs:139-149 `NodeProcess::create_metrics_result`. -/
def create_metrics_result (peer_data : List (String × Nat)) : MetricsResult :=
  { peers := (lookupKV peer_data "discovered").getD 0
    peer_types := some peer_data
    status :=
      if (lookupKV peer_data "discovered").isSome then MetricsStatus.available
      else MetricsStatus.noMetricFound }

/-! ## Scrape retry loop (src/bootnode.rs `check_discovered_peers`) -/

/-- src/bootnode.rs:152 `const MAX_RETRIES: u32 = 5`. -/
def MAX_RETRIES : Nat := 5

/-- src/bootnode.rs:153 `const INITIAL_BACKOFF: Duration = 100 ms` (in ms). -/
def INITIAL_BACKOFF_MS : Nat := 100

/-- Observable outcome of one `check_discovered_peers` call: the returned
`Result`, how many fetch attempts were made, and the inter-attempt sleep
durations in milliseconds, in order. -/
structure ScrapeRun where
  result : Except String MetricsResult
  attempts : Nat
  delays : List Nat
deriving Repr

/-- The `for retry in 0..MAX_RETRIES` loop of src/bootnode.rs:155-189,
structural on the number of remaining iterations (callers start it at
`retry = 0`, `remaining = MAX_RETRIES`). `fetch` is the outcome oracle of
`fetch_metrics` per attempt index, `jitter` the raw `rand::random::<u64>()`
value per attempt; the slept delay is `backoff + jitter % 100` where
`backoff = INITIAL_BACKOFF_MS * 2 ^ retry`. After the loop the source
returns the "after 5 attempts" error (src/bootnode.rs:191-194). -/
def scrapeLoop (fetch : Nat → Except String String) (jitter : Nat → Nat) :
    Nat → Nat → ScrapeRun
  | _retry, 0 =>
    ⟨.error ("Failed to fetch metrics after " ++ toString MAX_RETRIES ++ " attempts"),
      MAX_RETRIES, []⟩
  | retry, remaining + 1 =>
    match fetch retry with
    | .ok metrics =>
      match parse_peer_metrics metrics with
      | .ok peer_data => ⟨.ok (create_metrics_result peer_data), retry + 1, []⟩
      | .error e =>
        if retry = MAX_RETRIES - 1 then ⟨.error e, retry + 1, []⟩
        else
          let rest := scrapeLoop fetch jitter (retry + 1) remaining
          ⟨rest.result, rest.attempts,
            (INITIAL_BACKOFF_MS * 2 ^ retry + jitter retry % 100) :: rest.delays⟩
    | .error e =>
      if retry = MAX_RETRIES - 1 then ⟨.error e, retry + 1, []⟩
      else
        let rest := scrapeLoop fetch jitter (retry + 1) remaining
        ⟨rest.result, rest.attempts,
          (INITIAL_BACKOFF_MS * 2 ^ retry + jitter retry % 100) :: rest.delays⟩

/-- src/bootnode.rs:151-195 `NodeProcess::check_discovered_peers`. -/
def check_discovered_peers (fetch : Nat → Except String String)
    (jitter : Nat → Nat) : ScrapeRun :=
  scrapeLoop fetch jitter 0 MAX_RETRIES

/-! ## Polling state machine (src/bootnode.rs `bootnode_is_working`) -/

/-- src/bootnode.rs:304 `const MAX_CONSECUTIVE_FAILURES: u32 = 3`. -/
def MAX_CONSECUTIVE_FAILURES : Nat := 3

/-- The `while Instant::now() < end_time` loop of src/bootnode.rs:306-360.
`scrape` is the outcome oracle of `check_discovered_peers` per iteration
index `i`; `fuel` counts the loop iterations that still start before the
deadline (`fuel = 0` means the deadline check fails and the poller returns
`Timeout`). The inner `let consecutive_failures := 0` mirrors the source's
reset at the top of the `Ok` arm (src/bootnode.rs:309), before the status
match. -/
def pollLoop (min_peers : Nat) (scrape : Nat → Except String MetricsResult) :
    Nat → Nat → Nat → Nat × TestStatus × Option String
  | 0, _, _ => (0, TestStatus.timeout, none)
  | fuel + 1, i, consecutive_failures =>
    match scrape i with
    | .ok metrics =>
      let consecutive_failures := 0
      match metrics.status with
      | .available =>
        if min_peers ≤ metrics.peers then (metrics.peers, TestStatus.success, none)
        else pollLoop min_peers scrape fuel (i + 1) consecutive_failures
      | .noMetricFound =>
        let consecutive_failures := consecutive_failures + 1
        if MAX_CONSECUTIVE_FAILURES ≤ consecutive_failures then
          (0, TestStatus.noMetricFound, none)
        else pollLoop min_peers scrape fuel (i + 1) consecutive_failures
      | .unavailable error =>
        let consecutive_failures := consecutive_failures + 1
        if MAX_CONSECUTIVE_FAILURES ≤ consecutive_failures then
          (0, TestStatus.metricsUnavailable, some error)
        else pollLoop min_peers scrape fuel (i + 1) consecutive_failures
    | .error e =>
      let consecutive_failures := consecutive_failures + 1
      if MAX_CONSECUTIVE_FAILURES ≤ consecutive_failures then
        (0, TestStatus.metricsUnavailable, some e)
      else pollLoop min_peers scrape fuel (i + 1) consecutive_failures

/-- src/bootnode.rs:297-367 `NodeProcess::bootnode_is_working`: the initial
5-second warm-up sleep only delays the first iteration; every exit of the
loop is wrapped in `Ok`, so the function never returns `Err`. -/
def bootnode_is_working (min_peers : Nat)
    (scrape : Nat → Except String MetricsResult) (fuel : Nat) :
    Except String (Nat × TestStatus × Option String) :=
  Except.ok (pollLoop min_peers scrape fuel 0 0)

/-! ## Process lifecycle (src/bootnode.rs `spawn_node`, `cleanup`, `test_bootnode`) -/

/-- Filesystem / process outcomes one `spawn_node` call observes:
the result of `std::fs::create_dir_all`, whether the chain-spec file
exists, and the result of `Command::spawn`. -/
structure SpawnEnv where
  create_dir_result : Except String Unit
  chain_spec_exists : Bool
  spawn_result : Except String Unit
deriving Repr

/-- The fields of src/bootnode.rs `NodeProcess` the embedded claims read. -/
structure NodeProcessM where
  data_dir : String
  prometheus_port : Nat
  p2p_port : Nat
  relaychain : Option String
deriving DecidableEq, Repr

/-- src/bootnode.rs:53-125 `spawn_node`, threading the port-counter state:
create the working directory, derive the relay-chain host for parachain
targets (`network.split('-').last()`, which always yields a segment), fail
fast when the chain-spec file is absent, draw the two ports, then spawn
(`.context("Failed to spawn node process")`, whose display text is the
context message). -/
def spawn_node (env : SpawnEnv) (cli : Cli) (ports : Nat)
    (operator network _bootnode command_id : String) :
    Except String (NodeProcessM × Nat) :=
  let data_dir := cli.data_dir ++ "/" ++ operator ++ "_" ++ network
  match env.create_dir_result with
  | .error e => .error e
  | .ok _ =>
    let relayResult : Except String (Option String) :=
      if command_id = "parachain" then
        match (network.splitOn "-").getLast? with
        | some relay => .ok (some relay)
        | none => .error "Invalid network name"
      else .ok none
    match relayResult with
    | .error e => .error e
    | .ok relaychain =>
      let chain_spec := cli.chain_spec_dir ++ "/" ++ network ++ ".json"
      if !env.chain_spec_exists then
        .error ("Chain spec file does not exist: " ++ chain_spec)
      else
        let pPort := get_next_port ports
        let p2p := get_next_port pPort.2
        match env.spawn_result with
        | .error _ => .error "Failed to spawn node process"
        | .ok _ =>
          .ok (⟨data_dir, pPort.1, p2p.1, relaychain⟩, p2p.2)

/-- src/bootnode.rs:128-137 `NodeProcess::cleanup`: the kill results are
discarded, a still-running process is only force-killed and warned about,
and the one fallible step is `std::fs::remove_dir_all(&self.data_dir)?`,
whose error propagates. -/
def cleanup (remove_dir_result : Except String Unit) : Except String Unit :=
  match remove_dir_result with
  | .error e => .error e
  | .ok _ => .ok ()

/-- src/bootnode.rs:370-422 `test_bootnode`. A spawn failure short-circuits
to a `NodeStartupFailed` result; otherwise the poll outcome is destructured,
`node.cleanup().await?` propagates any cleanup error, and the final result's
`valid` is `discovered_peers >= cli.min_peers`. `elapsed_ms` models
`start_time.elapsed().as_millis()`. -/
def test_bootnode (env : SpawnEnv) (cli : Cli) (ports : Nat)
    (scrape : Nat → Except String MetricsResult) (fuel : Nat)
    (remove_dir_result : Except String Unit) (elapsed_ms : Nat)
    (operator network bootnode command_id : String) :
    Except String TestResult :=
  match spawn_node env cli ports operator network bootnode command_id with
  | .error e =>
    .ok { id := operator, network := network, bootnode := bootnode
          valid := false, test_duration_ms := elapsed_ms
          discovered_peers := 0, status := TestStatus.nodeStartupFailed
          error_details := some e }
  | .ok _node =>
    match bootnode_is_working cli.min_peers scrape fuel with
    | .error e => .error e
    | .ok (discovered_peers, status, error_details) =>
      match cleanup remove_dir_result with
      | .error e => .error e
      | .ok _ =>
        .ok { id := operator, network := network, bootnode := bootnode
              valid := decide (cli.min_peers ≤ discovered_peers)
              test_duration_ms := elapsed_ms
              discovered_peers := discovered_peers, status := status
              error_details := error_details }

/-! ## Result store (src/main.rs `update_results`) -/

/-- The JSON values src/main.rs `update_results` manipulates
(`serde_json::Value`; objects as association lists). -/
inductive Json where
  | null : Json
  | bool : Bool → Json
  | num : Nat → Json
  | str : String → Json
  | obj : List (String × Json) → Json

/-- `serde` serialization of `TestStatus`
(`#[serde(rename_all = "camelCase")]`, src/metrics.rs:23-31). -/
def serialize_test_status : TestStatus → String
  | .success => "success"
  | .metricsUnavailable => "metricsUnavailable"
  | .noMetricFound => "noMetricFound"
  | .timeout => "timeout"
  | .nodeStartupFailed => "nodeStartupFailed"

/-- `serde_json::to_value` of a `TestResult` (src/metrics.rs:33-43). -/
def serialize_test_result (r : TestResult) : Json :=
  .obj [("id", .str r.id), ("network", .str r.network),
        ("bootnode", .str r.bootnode), ("valid", .bool r.valid),
        ("test_duration_ms", .num r.test_duration_ms),
        ("discovered_peers", .num r.discovered_peers),
        ("status", .str (serialize_test_status r.status)),
        ("error_details",
          match r.error_details with
          | some s => .str s
          | none => .null)]

/-- src/main.rs:101-131 `update_results`, on the parsed document: when the
document is an object, `entry(operator).or_insert(json!({}))` fetches or
creates the operator object (`as_object_mut` fails on a non-object value
with "Invalid JSON structure"), and the network key is set to the
serialized outcome; a non-object document is written back unchanged by the
non-matching `if let`. File read, temp-file write and atomic rename are
modelled away; the value returned is the document written. -/
def update_results (json : Json) (operator network : String)
    (result : TestResult) : Except String Json :=
  match json with
  | .obj map =>
    match lookupKV map operator with
    | some (Json.obj operator_obj) =>
      .ok (.obj (setKV map operator
        (.obj (setKV operator_obj network (serialize_test_result result)))))
    | some _ => .error "Invalid JSON structure"
    | none =>
      .ok (.obj (map ++ [(operator,
        Json.obj [(network, serialize_test_result result)])]))
  | other => .ok other

/-! ## Helper lemmas: port allocator -/

lemma portTrace_mem_bounds (L : Nat) (hL : L ≤ MIN_PORT) :
    ∀ (k s : Nat), L ≤ s → s ≤ MAX_PORT →
      ∀ p ∈ portTrace k s, L ≤ p ∧ p ≤ MAX_PORT := by
  intro k
  induction k with
  | zero =>
    intro s _ _ p hp
    simp [portTrace] at hp
  | succ k ih =>
    intro s hLs hsM p hp
    rw [portTrace] at hp
    rcases List.mem_cons.mp hp with h | h
    · have hps : p = s := h
      exact hps ▸ ⟨hLs, hsM⟩
    · by_cases hM : MAX_PORT ≤ s
      · have h2 : (get_next_port s).2 = MIN_PORT := by simp [get_next_port, hM]
        rw [h2] at h
        exact ih MIN_PORT hL (by norm_num [MIN_PORT, MAX_PORT]) p h
      · have h2 : (get_next_port s).2 = s + 1 := by simp [get_next_port, hM]
        rw [h2] at h
        exact ih (s + 1) (Nat.le_trans hLs (Nat.le_succ s)) (by omega) p h

lemma portState_wrap : ∀ (d s : Nat), s + d = MAX_PORT →
    portState (d + 1) s = MIN_PORT := by
  intro d
  induction d with
  | zero =>
    intro s hs
    simp only [Nat.add_zero] at hs
    simp [portState, get_next_port, hs]
  | succ d ih =>
    intro s hs
    have hlt : ¬ MAX_PORT ≤ s := by omega
    have h2 : (get_next_port s).2 = s + 1 := by simp [get_next_port, hlt]
    show portState (d + 1) (get_next_port s).2 = MIN_PORT
    rw [h2]
    exact ih (s + 1) (by omega)

/-! ## Helper lemmas: polling loop -/

lemma pollLoop_all_noMetricFound (min_peers : Nat)
    (scrape : Nat → Except String MetricsResult)
    (h : ∀ n, ∃ m, scrape n = Except.ok m ∧ m.status = MetricsStatus.noMetricFound) :
    ∀ fuel i cf, pollLoop min_peers scrape fuel i cf = (0, TestStatus.timeout, none) := by
  intro fuel
  induction fuel with
  | zero => intro i cf; rfl
  | succ fuel ih =>
    intro i cf
    obtain ⟨m, hm, hst⟩ := h i
    rw [pollLoop, hm]
    simp only [hst, MAX_CONSECUTIVE_FAILURES]
    norm_num
    exact ih (i + 1) 1

/-! ## Claims C5 and C1 -/

/-- C5, counterexample: with the configured floor `base_port = 65535`
(a legal `u16`), the first call returns 65535 and — after issuing
`ceiling - floor + 1 = 1` calls — the next call returns the hard-coded
`MIN_PORT = 49152`, which is outside `[65535, 65535]` and differs from the
configured floor. This refutes "never returns a value outside
[floor, ceiling]" and "the next call returns the configured floor" when
the floor is read as `base_port`. -/
theorem c5_counterexample :
    portTrace 2 65535 = [65535, 49152] ∧ 49152 < 65535 ∧ MIN_PORT = 49152 := by
  decide

/-- C5, amended: starting the counter at any `base ≤ MAX_PORT`, every port
returned lies in `[min base MIN_PORT, MAX_PORT]`, and after issuing
`MAX_PORT - base + 1` calls with no intervening reset the next call returns
the hard-coded floor `MIN_PORT = 49152` — which equals the configured
`base_port` only when `base_port = 49152`. -/
theorem c5_port_range_and_wrap (base k : Nat) (hb : base ≤ MAX_PORT) :
    (∀ p ∈ portTrace k base, min base MIN_PORT ≤ p ∧ p ≤ MAX_PORT) ∧
    (get_next_port (portState (MAX_PORT - base + 1) base)).1 = MIN_PORT := by
  constructor
  · exact portTrace_mem_bounds (min base MIN_PORT) (Nat.min_le_right _ _) k base
      (Nat.min_le_left _ _) hb
  · rw [portState_wrap (MAX_PORT - base) base (by omega)]
    rfl

/-- C5, witness for `c5_port_range_and_wrap` at `base = 65535`, `k = 2`. -/
theorem c5_port_range_and_wrap_witness :
    (65535 : Nat) ≤ MAX_PORT ∧
      ((∀ p ∈ portTrace 2 65535, min 65535 MIN_PORT ≤ p ∧ p ≤ MAX_PORT) ∧
        (get_next_port (portState (MAX_PORT - 65535 + 1) 65535)).1 = MIN_PORT) :=
  ⟨by decide, c5_port_range_and_wrap 65535 2 (by decide)⟩

/-- C1: the claim says three consecutive `NoMetricFound` snapshots make the
poller exit early with the `NoMetricFound` outcome. The code cannot do
this: src/bootnode.rs:309 resets `consecutive_failures` to 0 at the top of
the `Ok` arm, before the status match, so after every `NoMetricFound`
snapshot the counter equals 1 and the threshold check at
src/bootnode.rs:323 (`consecutive_failures >= 3`) is never true. When every
scrape yields a `NoMetricFound` snapshot the poller therefore loops until
the deadline and returns `Timeout` — for every deadline, however far in
the future. -/
theorem c1_all_noMetricFound_times_out (min_peers : Nat)
    (scrape : Nat → Except String MetricsResult)
    (h : ∀ n, ∃ m, scrape n = Except.ok m ∧ m.status = MetricsStatus.noMetricFound) :
    ∀ fuel, bootnode_is_working min_peers scrape fuel =
      Except.ok (0, TestStatus.timeout, none) := by
  intro fuel
  unfold bootnode_is_working
  rw [pollLoop_all_noMetricFound min_peers scrape h fuel 0 0]

/-- C1, witness for `c1_all_noMetricFound_times_out`: every scrape returns
a `NoMetricFound` snapshot and the deadline allows 10 polls, yet the
outcome is `Timeout`. -/
theorem c1_all_noMetricFound_times_out_witness :
    (∀ n : Nat, ∃ m,
        (fun _ : Nat =>
          (Except.ok ⟨0, some [], MetricsStatus.noMetricFound⟩ :
            Except String MetricsResult)) n = Except.ok m ∧
        m.status = MetricsStatus.noMetricFound) ∧
    bootnode_is_working 1
        (fun _ => Except.ok ⟨0, some [], MetricsStatus.noMetricFound⟩) 10 =
      Except.ok (0, TestStatus.timeout, none) :=
  ⟨fun _ => ⟨⟨0, some [], MetricsStatus.noMetricFound⟩, rfl, rfl⟩,
    c1_all_noMetricFound_times_out 1 _
      (fun _ => ⟨⟨0, some [], MetricsStatus.noMetricFound⟩, rfl, rfl⟩) 10⟩

lemma pollLoop_peers_spec (min_peers : Nat)
    (scrape : Nat → Except String MetricsResult) :
    ∀ fuel i cf,
      ((pollLoop min_peers scrape fuel i cf).2.1 = TestStatus.success →
        min_peers ≤ (pollLoop min_peers scrape fuel i cf).1) ∧
      ((pollLoop min_peers scrape fuel i cf).2.1 ≠ TestStatus.success →
        (pollLoop min_peers scrape fuel i cf).1 = 0) := by
  intro fuel
  induction fuel with
  | zero =>
    intro i cf
    constructor
    · intro h; simp [pollLoop] at h
    · intro _; rfl
  | succ fuel ih =>
    intro i cf
    cases hs : scrape i with
    | ok m =>
      cases hst : m.status with
      | available =>
        by_cases hp : min_peers ≤ m.peers
        · constructor
          · intro _
            simp [pollLoop, hs, hst, hp]
          · intro hne
            exact absurd (by simp [pollLoop, hs, hst, hp]) hne
        · have hrec : pollLoop min_peers scrape (fuel + 1) i cf =
              pollLoop min_peers scrape fuel (i + 1) 0 := by
            simp [pollLoop, hs, hst, hp]
          rw [hrec]
          exact ih (i + 1) 0
      | noMetricFound =>
        have hrec : pollLoop min_peers scrape (fuel + 1) i cf =
            pollLoop min_peers scrape fuel (i + 1) 1 := by
          simp [pollLoop, hs, hst, MAX_CONSECUTIVE_FAILURES]
        rw [hrec]
        exact ih (i + 1) 1
      | unavailable reason =>
        by_cases h3 : MAX_CONSECUTIVE_FAILURES ≤ 0 + 1
        · constructor
          · intro habs
            simp [pollLoop, hs, hst, h3] at habs
          · intro _
            simp [pollLoop, hs, hst, h3]
        · have hrec : pollLoop min_peers scrape (fuel + 1) i cf =
              pollLoop min_peers scrape fuel (i + 1) 1 := by
            simp [pollLoop, hs, hst, h3]
          rw [hrec]
          exact ih (i + 1) 1
    | error e =>
      by_cases h3 : MAX_CONSECUTIVE_FAILURES ≤ cf + 1
      · constructor
        · intro habs
          simp [pollLoop, hs, h3] at habs
        · intro _
          simp [pollLoop, hs, h3]
      · have hrec : pollLoop min_peers scrape (fuel + 1) i cf =
            pollLoop min_peers scrape fuel (i + 1) (cf + 1) := by
          simp [pollLoop, hs, h3]
        rw [hrec]
        exact ih (i + 1) (cf + 1)

/-! ## Claims C2, C3 and C7 -/

/-- C2, counterexample: `test_bootnode` computes `valid` as
`discovered_peers >= cli.min_peers` alone (src/bootnode.rs:416), not
conjoined with `status == Success`. With a configured minimum of 0 and
every scrape yielding a `NoMetricFound` snapshot, the poller times out,
yet the result has `valid = true` with `status = Timeout ≠ Success`. -/
theorem c2_counterexample :
    test_bootnode ⟨Except.ok (), true, Except.ok ()⟩ ⟨"/d", "/cs", 0, 30⟩ 49152
        (fun _ => Except.ok ⟨0, some [], MetricsStatus.noMetricFound⟩) 4
        (Except.ok ()) 7 "op" "net" "bn" "relay" =
      Except.ok ⟨"op", "net", "bn", true, 7, 0, TestStatus.timeout, none⟩ ∧
    TestStatus.timeout ≠ TestStatus.success :=
  ⟨by rfl, by decide⟩

/-- C2, amended: provided the configured minimum peer count is at least 1
(`min_peers` is absent from src/src/cli.rs and is modelled from the spec as
a `u64`, so 0 is a legal configuration that refutes the claim as stated),
every `TestResult` returned by `test_bootnode` satisfies
`valid = true ↔ (discovered_peers ≥ min_peers ∧ status = Success)`; in
particular every non-`Success` outcome then has `valid = false`. -/
theorem c2_valid_iff_success_of_min_pos (env : SpawnEnv) (cli : Cli)
    (ports : Nat) (scrape : Nat → Except String MetricsResult) (fuel : Nat)
    (remove_dir_result : Except String Unit) (elapsed_ms : Nat)
    (operator network bootnode command_id : String)
    (hmin : 1 ≤ cli.min_peers) (r : TestResult)
    (h : test_bootnode env cli ports scrape fuel remove_dir_result elapsed_ms
        operator network bootnode command_id = Except.ok r) :
    r.valid = true ↔
      (cli.min_peers ≤ r.discovered_peers ∧ r.status = TestStatus.success) := by
  cases hsp : spawn_node env cli ports operator network bootnode command_id with
  | error e =>
    simp only [test_bootnode, hsp] at h
    injection h with h
    subst h
    simp
  | ok node =>
    rcases hP : pollLoop cli.min_peers scrape fuel 0 0 with ⟨p, st, ed⟩
    simp only [test_bootnode, hsp, bootnode_is_working, hP] at h
    cases remove_dir_result with
    | error e => simp [cleanup] at h
    | ok u =>
      simp only [cleanup] at h
      injection h with h
      subst h
      have hspec := pollLoop_peers_spec cli.min_peers scrape fuel 0 0
      rw [hP] at hspec
      by_cases hst : st = TestStatus.success
      · have hge : cli.min_peers ≤ p := hspec.1 hst
        simp [hst, hge]
      · have hzero : p = 0 := hspec.2 hst
        subst hzero
        simp [hst]
        omega

/-- C2, witness for `c2_valid_iff_success_of_min_pos`: a successful probe
with minimum 3 and 5 discovered peers. -/
theorem c2_valid_iff_success_of_min_pos_witness :
    1 ≤ (⟨"/d", "/cs", 3, 30⟩ : Cli).min_peers ∧
    test_bootnode ⟨Except.ok (), true, Except.ok ()⟩ ⟨"/d", "/cs", 3, 30⟩ 49152
        (fun _ => Except.ok ⟨5, some [("discovered", 5)], MetricsStatus.available⟩) 4
        (Except.ok ()) 7 "op" "net" "bn" "relay" =
      Except.ok ⟨"op", "net", "bn", true, 7, 5, TestStatus.success, none⟩ ∧
    ((⟨"op", "net", "bn", true, 7, 5, TestStatus.success, none⟩ : TestResult).valid
        = true ↔
      ((⟨"/d", "/cs", 3, 30⟩ : Cli).min_peers ≤
          (⟨"op", "net", "bn", true, 7, 5, TestStatus.success, none⟩ :
            TestResult).discovered_peers ∧
        (⟨"op", "net", "bn", true, 7, 5, TestStatus.success, none⟩ :
            TestResult).status = TestStatus.success)) :=
  ⟨by decide, by rfl,
    c2_valid_iff_success_of_min_pos ⟨Except.ok (), true, Except.ok ()⟩
      ⟨"/d", "/cs", 3, 30⟩ 49152
      (fun _ => Except.ok ⟨5, some [("discovered", 5)], MetricsStatus.available⟩) 4
      (Except.ok ()) 7 "op" "net" "bn" "relay" (by decide) _ (by rfl)⟩

/-- C3: the claim (and spec) say a cleanup failure is reported but does not
mask the probe's decided outcome. The code contradicts this:
`NodeProcess::cleanup` propagates the `remove_dir_all` error
(src/bootnode.rs:135) and `test_bootnode` applies `?` to it
(src/bootnode.rs:410) after the outcome triple has already been computed,
so the function returns `Err(e)` and the decided `TestResult` is lost
(the caller in `run_test_cycle` then only logs the error and stores
nothing). This theorem evaluates the code at the failing input: whenever
the node started and directory removal fails, `test_bootnode` returns the
error, whatever outcome polling decided. -/
theorem c3_cleanup_error_masks_outcome (env : SpawnEnv) (cli : Cli)
    (ports : Nat) (scrape : Nat → Except String MetricsResult) (fuel : Nat)
    (elapsed_ms : Nat) (operator network bootnode command_id e : String)
    (h : ∃ node, spawn_node env cli ports operator network bootnode command_id =
        Except.ok node) :
    test_bootnode env cli ports scrape fuel (Except.error e) elapsed_ms
        operator network bootnode command_id = Except.error e := by
  obtain ⟨node, hn⟩ := h
  rcases hP : pollLoop cli.min_peers scrape fuel 0 0 with ⟨p, st, ed⟩
  simp [test_bootnode, hn, bootnode_is_working, hP, cleanup]

/-- C3, witness for `c3_cleanup_error_masks_outcome`: a started probe whose
working-directory removal fails with a permission error. -/
theorem c3_cleanup_error_masks_outcome_witness :
    (∃ node, spawn_node ⟨Except.ok (), true, Except.ok ()⟩ ⟨"/d", "/cs", 1, 30⟩
        49152 "op" "net" "bn" "relay" = Except.ok node) ∧
    test_bootnode ⟨Except.ok (), true, Except.ok ()⟩ ⟨"/d", "/cs", 1, 30⟩ 49152
        (fun _ => Except.ok ⟨5, some [("discovered", 5)], MetricsStatus.available⟩) 4
        (Except.error "Permission denied (os error 13)") 9
        "op" "net" "bn" "relay" =
      Except.error "Permission denied (os error 13)" :=
  ⟨⟨_, rfl⟩,
    c3_cleanup_error_masks_outcome ⟨Except.ok (), true, Except.ok ()⟩
      ⟨"/d", "/cs", 1, 30⟩ 49152
      (fun _ => Except.ok ⟨5, some [("discovered", 5)], MetricsStatus.available⟩) 4 9
      "op" "net" "bn" "relay" "Permission denied (os error 13)" ⟨_, rfl⟩⟩

/-- C7: whenever `spawn_node` fails (directory creation failure, missing
chain-spec file, or spawn failure), `test_bootnode` resolves immediately —
for every scrape oracle, deadline and cleanup outcome it returns the same
`TestResult` with `status = NodeStartupFailed`, `valid = false`,
`discovered_peers = 0` and the underlying cause in `error_details`;
polling is never entered. -/
theorem c7_spawn_failure_immediate_startup_failed (env : SpawnEnv) (cli : Cli)
    (ports : Nat) (operator network bootnode command_id e : String)
    (h : spawn_node env cli ports operator network bootnode command_id =
        Except.error e) :
    ∀ (scrape : Nat → Except String MetricsResult) (fuel : Nat)
      (remove_dir_result : Except String Unit) (elapsed_ms : Nat),
      test_bootnode env cli ports scrape fuel remove_dir_result elapsed_ms
          operator network bootnode command_id =
        Except.ok ⟨operator, network, bootnode, false, elapsed_ms, 0,
          TestStatus.nodeStartupFailed, some e⟩ := by
  intro scrape fuel remove_dir_result elapsed_ms
  simp [test_bootnode, h]

/-- C7, witness for `c7_spawn_failure_immediate_startup_failed`: the
chain-spec file for network "net" is absent. -/
theorem c7_spawn_failure_immediate_startup_failed_witness :
    spawn_node ⟨Except.ok (), false, Except.ok ()⟩ ⟨"/d", "/cs", 1, 30⟩ 49152
        "op" "net" "bn" "relay" =
      Except.error "Chain spec file does not exist: /cs/net.json" ∧
    test_bootnode ⟨Except.ok (), false, Except.ok ()⟩ ⟨"/d", "/cs", 1, 30⟩ 49152
        (fun _ => Except.error "never scraped") 4 (Except.ok ()) 0
        "op" "net" "bn" "relay" =
      Except.ok ⟨"op", "net", "bn", false, 0, 0,
        TestStatus.nodeStartupFailed,
        some "Chain spec file does not exist: /cs/net.json"⟩ :=
  ⟨by rfl,
    c7_spawn_failure_immediate_startup_failed ⟨Except.ok (), false, Except.ok ()⟩
      ⟨"/d", "/cs", 1, 30⟩ 49152 "op" "net" "bn" "relay"
      "Chain spec file does not exist: /cs/net.json" (by rfl)
      (fun _ => Except.error "never scraped") 4 (Except.ok ()) 0⟩

/-! ## Claim C4 -/

/-- C4, counterexample: the payload consists of the recognized
connected-peer metric `substrate_sub_libp2p_peers_count` only. A
recognized metric name is found (the map holds `"connected" ↦ 5`), yet the
snapshot's status is `NoMetricFound`, because
`create_metrics_result` keys the status on `contains_key("discovered")`
alone (src/bootnode.rs:143). This refutes "status is Available if a
recognized metric name was found in the payload". -/
theorem c4_counterexample :
    parse_peer_metrics "substrate_sub_libp2p_peers_count 5" =
      Except.ok [("connected", 5)] ∧
    (create_metrics_result [("connected", 5)]).status =
      MetricsStatus.noMetricFound ∧
    MetricsStatus.noMetricFound ≠ MetricsStatus.available :=
  ⟨by rfl, by rfl, by decide⟩

/-- C4, amended: for every metrics payload of a successful scrape, the
snapshot's status is `Available` iff the discovered-peer metric
specifically (`substrate_sub_libp2p_peerset_num_discovered`, map key
`"discovered"`) was found, and `NoMetricFound` iff it was not — even when
the other recognized metric is present; when `Available`, the
discovered-peer value is the snapshot's primary peer count. -/
theorem c4_status_available_iff_discovered (s : String)
    (pd : List (String × Nat)) (_h : parse_peer_metrics s = Except.ok pd) :
    ((create_metrics_result pd).status = MetricsStatus.available ↔
      (lookupKV pd "discovered").isSome = true) ∧
    ((create_metrics_result pd).status = MetricsStatus.noMetricFound ↔
      lookupKV pd "discovered" = none) ∧
    (∀ v, lookupKV pd "discovered" = some v →
      (create_metrics_result pd).peers = v) := by
  refine ⟨?_, ?_, ?_⟩
  · by_cases hd : (lookupKV pd "discovered").isSome = true <;>
      simp [create_metrics_result, hd]
  · cases hopt : lookupKV pd "discovered" with
    | none => simp [create_metrics_result, hopt]
    | some v => simp [create_metrics_result, hopt]
  · intro v hv
    simp [create_metrics_result, hv]

/-- C4, witness for `c4_status_available_iff_discovered`: a payload holding
the discovered-peer metric with value 12. -/
theorem c4_status_available_iff_discovered_witness :
    parse_peer_metrics "substrate_sub_libp2p_peerset_num_discovered 12" =
      Except.ok [("discovered", 12)] ∧
    (((create_metrics_result [("discovered", 12)]).status =
        MetricsStatus.available ↔
      (lookupKV [("discovered", 12)] "discovered").isSome = true) ∧
    ((create_metrics_result [("discovered", 12)]).status =
        MetricsStatus.noMetricFound ↔
      lookupKV [("discovered", 12)] "discovered" = none) ∧
    (∀ v, lookupKV [("discovered", 12)] "discovered" = some v →
      (create_metrics_result [("discovered", 12)]).peers = v)) :=
  ⟨by rfl,
    c4_status_available_iff_discovered
      "substrate_sub_libp2p_peerset_num_discovered 12" [("discovered", 12)]
      (by rfl)⟩

/-! ## Claim C6 -/

/-- C6: when every fetch attempt fails, `check_discovered_peers` makes
exactly `MAX_RETRIES = 5` attempts and returns an error; it sleeps exactly
4 inter-attempt delays, the delay before retry `i + 1` being
`INITIAL_BACKOFF_MS * 2 ^ i` plus the jitter term `jitter i % 100`, so
every delay is at least the base exponential backoff for its attempt index
and the base sequence is monotonically non-decreasing. -/
theorem c6_all_fetches_fail_five_attempts (fetch : Nat → Except String String)
    (jitter : Nat → Nat)
    (h : ∀ r, r < MAX_RETRIES → ∃ e, fetch r = Except.error e) :
    (check_discovered_peers fetch jitter).result.isOk = false ∧
    (check_discovered_peers fetch jitter).attempts = MAX_RETRIES ∧
    (check_discovered_peers fetch jitter).delays =
      (List.range (MAX_RETRIES - 1)).map
        (fun i => INITIAL_BACKOFF_MS * 2 ^ i + jitter i % 100) ∧
    (∀ i, ∀ hi : i < (check_discovered_peers fetch jitter).delays.length,
      INITIAL_BACKOFF_MS * 2 ^ i ≤
        (check_discovered_peers fetch jitter).delays.get ⟨i, hi⟩) := by
  obtain ⟨e0, h0⟩ := h 0 (by decide)
  obtain ⟨e1, h1⟩ := h 1 (by decide)
  obtain ⟨e2, h2⟩ := h 2 (by decide)
  obtain ⟨e3, h3⟩ := h 3 (by decide)
  obtain ⟨e4, h4⟩ := h 4 (by decide)
  have hrun : check_discovered_peers fetch jitter =
      ⟨Except.error e4, 5,
        [100 + jitter 0 % 100, 200 + jitter 1 % 100,
          400 + jitter 2 % 100, 800 + jitter 3 % 100]⟩ := by
    simp [check_discovered_peers, scrapeLoop, h0, h1, h2, h3, h4,
      MAX_RETRIES, INITIAL_BACKOFF_MS]
  rw [hrun]
  refine ⟨rfl, rfl, ?_, ?_⟩
  · simp [MAX_RETRIES, INITIAL_BACKOFF_MS, List.range_succ]
  · intro i hi
    simp only [List.length_cons, List.length_nil] at hi
    interval_cases i <;> simp [INITIAL_BACKOFF_MS, List.get]

/-- C6, witness for `c6_all_fetches_fail_five_attempts`: every fetch fails
with "no route to host". -/
theorem c6_all_fetches_fail_five_attempts_witness :
    (∀ r, r < MAX_RETRIES → ∃ e,
        (fun _ : Nat => (Except.error "no route to host" : Except String String)) r
          = Except.error e) ∧
    ((check_discovered_peers (fun _ => Except.error "no route to host")
        (fun r => 37 * r)).result.isOk = false ∧
      (check_discovered_peers (fun _ => Except.error "no route to host")
        (fun r => 37 * r)).attempts = MAX_RETRIES ∧
      (check_discovered_peers (fun _ => Except.error "no route to host")
        (fun r => 37 * r)).delays =
        (List.range (MAX_RETRIES - 1)).map
          (fun i => INITIAL_BACKOFF_MS * 2 ^ i + (37 * i) % 100) ∧
      (∀ i, ∀ hi : i < (check_discovered_peers
          (fun _ => Except.error "no route to host")
          (fun r => 37 * r)).delays.length,
        INITIAL_BACKOFF_MS * 2 ^ i ≤
          (check_discovered_peers (fun _ => Except.error "no route to host")
            (fun r => 37 * r)).delays.get ⟨i, hi⟩)) :=
  ⟨fun _ _ => ⟨"no route to host", rfl⟩,
    c6_all_fetches_fail_five_attempts (fun _ => Except.error "no route to host")
      (fun r => 37 * r) (fun _ _ => ⟨"no route to host", rfl⟩)⟩

/-! ## Claim C9 -/

/-- C9: (1) `create_metrics_result` never constructs
`MetricsStatus::Unavailable` — every snapshot from a successful scrape is
`Available` or `NoMetricFound` — and (2) whenever every `Ok` scrape
outcome is one built by `create_metrics_result` (as in the program, where
`check_discovered_peers` is the only producer), a poll run that ends in
`MetricsUnavailable` must have consumed a scrape error: the
`Unavailable`-handling branch of the poller is unreachable and
`MetricsUnavailable` can only arise from scrape errors. -/
theorem c9_unavailable_only_from_scrape_error :
    (∀ peer_data reason,
      (create_metrics_result peer_data).status ≠
        MetricsStatus.unavailable reason) ∧
    (∀ (min_peers : Nat) (scrape : Nat → Except String MetricsResult)
        (fuel i cf : Nat),
      (∀ n m, scrape n = Except.ok m → ∃ pd, m = create_metrics_result pd) →
      (pollLoop min_peers scrape fuel i cf).2.1 = TestStatus.metricsUnavailable →
      ∃ n e, scrape n = Except.error e) := by
  have hstat : ∀ peer_data reason,
      (create_metrics_result peer_data).status ≠
        MetricsStatus.unavailable reason := by
    intro pd reason
    by_cases hd : (lookupKV pd "discovered").isSome = true <;>
      simp [create_metrics_result, hd]
  refine ⟨hstat, ?_⟩
  intro min_peers scrape fuel
  induction fuel with
  | zero =>
    intro i cf _ habs
    simp [pollLoop] at habs
  | succ fuel ih =>
    intro i cf hok habs
    cases hs : scrape i with
    | ok m =>
      obtain ⟨pd, rfl⟩ := hok i m hs
      cases hst : (create_metrics_result pd).status with
      | available =>
        by_cases hp : min_peers ≤ (create_metrics_result pd).peers
        · simp [pollLoop, hs, hst, hp] at habs
        · rw [pollLoop, hs] at habs
          simp only [hst] at habs
          rw [if_neg hp] at habs
          exact ih (i + 1) 0 hok habs
      | noMetricFound =>
        rw [pollLoop, hs] at habs
        simp only [hst, MAX_CONSECUTIVE_FAILURES] at habs
        norm_num at habs
        exact ih (i + 1) 1 hok habs
      | unavailable reason => exact absurd hst (hstat pd reason)
    | error e =>
      by_cases h3 : MAX_CONSECUTIVE_FAILURES ≤ cf + 1
      · exact ⟨i, e, hs⟩
      · simp only [pollLoop, hs] at habs
        rw [if_neg h3] at habs
        exact ih (i + 1) (cf + 1) hok habs

/-- C9, witness for `c9_unavailable_only_from_scrape_error`: every scrape
errors, the poller ends in `MetricsUnavailable`, and a scrape error indeed
occurs in the consumed sequence. -/
theorem c9_unavailable_only_from_scrape_error_witness :
    (∀ n m, (fun _ : Nat => (Except.error "boom" : Except String MetricsResult)) n
        = Except.ok m → ∃ pd, m = create_metrics_result pd) ∧
    (pollLoop 1 (fun _ => Except.error "boom") 5 0 0).2.1 =
      TestStatus.metricsUnavailable ∧
    (∃ n e, (fun _ : Nat => (Except.error "boom" : Except String MetricsResult)) n
        = Except.error e) :=
  ⟨fun _ m h => absurd h (by simp),
    by rfl,
    c9_unavailable_only_from_scrape_error.2 1 (fun _ => Except.error "boom") 5 0 0
      (fun _ m h => absurd h (by simp)) (by rfl)⟩

/-! ## Claim C10 -/

lemma scrapeLoop_first_ok (fetch : Nat → Except String String)
    (jitter : Nat → Nat) (r : Nat) (payload : String) (hr : r < MAX_RETRIES)
    (hbefore : ∀ r', r' < r → ∃ e, fetch r' = Except.error e)
    (hok : fetch r = Except.ok payload) :
    ∀ remaining retry, retry + remaining = MAX_RETRIES → retry ≤ r →
      ∃ pd ds, parse_peer_metrics payload = Except.ok pd ∧
        scrapeLoop fetch jitter retry remaining =
          ⟨Except.ok (create_metrics_result pd), r + 1, ds⟩ := by
  intro remaining
  induction remaining with
  | zero =>
    intro retry hsum hle
    omega
  | succ remaining ih =>
    intro retry hsum hle
    by_cases heq : retry = r
    · subst heq
      refine ⟨_, [], rfl, ?_⟩
      simp only [scrapeLoop, hok, parse_peer_metrics]
    · have hlt : retry < r := Nat.lt_of_le_of_ne hle heq
      obtain ⟨e, he⟩ := hbefore retry hlt
      have hne : ¬ retry = MAX_RETRIES - 1 := by omega
      obtain ⟨pd, ds, hpd, hrec⟩ := ih (retry + 1) (by omega) (by omega)
      refine ⟨pd, (INITIAL_BACKOFF_MS * 2 ^ retry + jitter retry % 100) :: ds,
        hpd, ?_⟩
      simp only [scrapeLoop, he]
      rw [if_neg hne, hrec]

/-- C10: (1) `parse_peer_metrics` returns `Ok` on every input string —
malformed lines are individually skipped, never fatal — so the
parse-failure retry branch of `check_discovered_peers`
(src/bootnode.rs:159-170) is unreachable; and (2) consequently the first
attempt whose HTTP fetch succeeds immediately yields the snapshot: if the
attempts before `r` all fail and attempt `r` fetches `payload`, the call
returns the snapshot built from `payload`'s parsed metrics after exactly
`r + 1` attempts. -/
theorem c10_parse_total_and_ok_fetch_yields_snapshot :
    (∀ s, ∃ pd, parse_peer_metrics s = Except.ok pd) ∧
    (∀ (fetch : Nat → Except String String) (jitter : Nat → Nat)
        (r : Nat) (payload : String), r < MAX_RETRIES →
      (∀ r', r' < r → ∃ e, fetch r' = Except.error e) →
      fetch r = Except.ok payload →
      ∃ pd ds, parse_peer_metrics payload = Except.ok pd ∧
        check_discovered_peers fetch jitter =
          ⟨Except.ok (create_metrics_result pd), r + 1, ds⟩) := by
  constructor
  · intro s
    exact ⟨_, rfl⟩
  · intro fetch jitter r payload hr hbefore hok
    exact scrapeLoop_first_ok fetch jitter r payload hr hbefore hok
      MAX_RETRIES 0 (by omega) (Nat.zero_le r)

/-- C10, witness for `c10_parse_total_and_ok_fetch_yields_snapshot`: the
first fetch fails, the second succeeds with a discovered-peer payload, and
the snapshot is returned after 2 attempts. -/
theorem c10_parse_total_and_ok_fetch_yields_snapshot_witness :
    ((1 : Nat) < MAX_RETRIES) ∧
    (∀ r', r' < 1 → ∃ e,
        (fun n : Nat => if n = 0 then (Except.error "connection refused" :
            Except String String)
          else Except.ok "substrate_sub_libp2p_peerset_num_discovered 4") r'
          = Except.error e) ∧
    (∃ pd ds,
      parse_peer_metrics "substrate_sub_libp2p_peerset_num_discovered 4" =
        Except.ok pd ∧
      check_discovered_peers
          (fun n : Nat => if n = 0 then Except.error "connection refused"
            else Except.ok "substrate_sub_libp2p_peerset_num_discovered 4")
          (fun _ => 0) =
        ⟨Except.ok (create_metrics_result pd), 1 + 1, ds⟩) :=
  ⟨by decide,
    fun r' hr' => ⟨"connection refused", by
      have h0 : r' = 0 := by omega
      subst h0
      rfl⟩,
    c10_parse_total_and_ok_fetch_yields_snapshot.2
      (fun n : Nat => if n = 0 then Except.error "connection refused"
        else Except.ok "substrate_sub_libp2p_peerset_num_discovered 4")
      (fun _ => 0) 1 "substrate_sub_libp2p_peerset_num_discovered 4"
      (by decide)
      (fun r' hr' => ⟨"connection refused", by
        have h0 : r' = 0 := by omega
        subst h0
        rfl⟩)
      (by rfl)⟩

/-! ## Claim C8 -/

lemma lookupKV_setKV_self {α : Type} (m : List (String × α)) (k : String)
    (v : α) : lookupKV (setKV m k v) k = some v := by
  induction m with
  | nil => simp [setKV, lookupKV]
  | cons p rest ih =>
    obtain ⟨k', v'⟩ := p
    by_cases hk : k' = k
    · simp [setKV, hk, lookupKV]
    · simp [setKV, hk, lookupKV, ih]

lemma setKV_setKV_self {α : Type} (m : List (String × α)) (k : String)
    (v w : α) : setKV (setKV m k v) k w = setKV m k w := by
  induction m with
  | nil => simp [setKV]
  | cons p rest ih =>
    obtain ⟨k', v'⟩ := p
    by_cases hk : k' = k <;> simp [setKV, hk, ih]

lemma lookupKV_append_of_none {α : Type} (m l : List (String × α))
    (k : String) (h : lookupKV m k = none) :
    lookupKV (m ++ l) k = lookupKV l k := by
  induction m with
  | nil => simp [lookupKV]
  | cons p rest ih =>
    obtain ⟨k', v'⟩ := p
    by_cases hk : k' = k
    · simp [lookupKV, hk] at h
    · simp only [lookupKV, hk, if_false, List.cons_append, ite_false] at h ⊢
      exact ih h

lemma setKV_append_key_absent {α : Type} (m : List (String × α)) (k : String)
    (x y : α) (h : lookupKV m k = none) :
    setKV (m ++ [(k, x)]) k y = m ++ [(k, y)] := by
  induction m with
  | nil => simp [setKV]
  | cons p rest ih =>
    obtain ⟨k', v'⟩ := p
    by_cases hk : k' = k
    · simp [lookupKV, hk] at h
    · simp only [lookupKV, hk, if_false, ite_false] at h
      simp only [List.cons_append, setKV, hk, ite_false, List.append_eq]
      rw [ih h]

/-- C8: merging the same `TestOutcome` into the result document twice
yields the document of the first merge unchanged — `update_results`
overwrites the operator/network key (last-write-wins) rather than
duplicating an entry: whenever the first merge produces `d'`, merging the
same outcome into `d'` produces `d'` again. -/
theorem c8_merge_idempotent (d : Json) (operator network : String)
    (r : TestResult) (d' : Json)
    (h : update_results d operator network r = Except.ok d') :
    update_results d' operator network r = Except.ok d' := by
  cases d with
  | null =>
    simp only [update_results] at h
    injection h with h
    subst h
    rfl
  | bool b =>
    simp only [update_results] at h
    injection h with h
    subst h
    rfl
  | num n =>
    simp only [update_results] at h
    injection h with h
    subst h
    rfl
  | str s =>
    simp only [update_results] at h
    injection h with h
    subst h
    rfl
  | obj map =>
    cases hl : lookupKV map operator with
    | none =>
      simp only [update_results, hl] at h
      injection h with h
      subst h
      simp only [update_results]
      rw [lookupKV_append_of_none map _ operator hl]
      simp only [lookupKV, if_pos, setKV, ite_true]
      rw [setKV_append_key_absent map operator _ _ hl]
    | some v =>
      cases v with
      | obj operator_obj =>
        simp only [update_results, hl] at h
        injection h with h
        subst h
        simp only [update_results, lookupKV_setKV_self, setKV_setKV_self]
      | null => simp [update_results, hl] at h
      | bool b => simp [update_results, hl] at h
      | num n => simp [update_results, hl] at h
      | str s => simp [update_results, hl] at h

/-- C8, witness for `c8_merge_idempotent`: merging a success outcome into
the empty document twice. -/
theorem c8_merge_idempotent_witness :
    update_results (Json.obj []) "op" "net"
        ⟨"op", "net", "bn", true, 100, 5, TestStatus.success, none⟩ =
      Except.ok (Json.obj [("op", Json.obj [("net",
        serialize_test_result
          ⟨"op", "net", "bn", true, 100, 5, TestStatus.success, none⟩)])]) ∧
    update_results
        (Json.obj [("op", Json.obj [("net",
          serialize_test_result
            ⟨"op", "net", "bn", true, 100, 5, TestStatus.success, none⟩)])])
        "op" "net" ⟨"op", "net", "bn", true, 100, 5, TestStatus.success, none⟩ =
      Except.ok (Json.obj [("op", Json.obj [("net",
        serialize_test_result
          ⟨"op", "net", "bn", true, 100, 5, TestStatus.success, none⟩)])]) :=
  ⟨rfl,
    c8_merge_idempotent (Json.obj []) "op" "net"
      ⟨"op", "net", "bn", true, 100, 5, TestStatus.success, none⟩ _ rfl⟩

end Bootyspector
